import Mathlib

/-!
Verification of the rusEfi trigger-decoding and angle-to-time scheduling core
against its design description, plus the SPI bring-up and stack-overflow panic
helpers from the hardware layer (`mpu_util.cpp`, `rusefi.cpp`).

The TriggerDecoder, RpmCalculator and AngleScheduler implementations live in
files of the repository that are not part of this excerpt (`rpm_calculator.cpp`,
`main_trigger_callback.cpp`, trigger decoder sources); only the doxygen
mainpage of `rusefi.cpp` describes them.  Those components are therefore
modelled from the specification text, as marked on each definition.
-/

namespace RusEfi

/-- Sensor channel of a trigger edge: primary (crank or cam, whichever is the
synchronizing signal) or secondary. -/
inductive TrigChannel
  | primary
  | secondary
deriving DecidableEq

/-- Edge polarity of a trigger signal transition. -/
inductive Polarity
  | rise
  | fall
deriving DecidableEq

/-- Modelled from the spec: an `Edge` — a timestamped transition on a channel
(channel id, polarity, monotonic hardware timestamp).  The concrete C struct is
not in the excerpt. -/
structure Edge where
  channel : TrigChannel
  polarity : Polarity
  timestamp : Int
deriving DecidableEq

/-- Modelled from the spec: `TriggerShape` — the static configuration-derived
description of the expected tooth pattern: tooth count per revolution, the
`syncRatioFrom`/`syncRatioTo` window, the primary decoding polarity and the
"no sync needed" flag (`needsSync = false` for single-tooth wheels).  The
concrete `trigger_structure.h` contents are not in the excerpt. -/
structure TriggerShape where
  toothCount : Nat
  syncRatioFrom : Rat
  syncRatioTo : Rat
  primaryPolarity : Polarity
  needsSync : Bool
deriving DecidableEq

/-- Modelled from the spec: `DecoderState` — the per-engine decoder state:
`synchronized`, `currentToothIndex`, `revolutionCounter`, the last edge
timestamp per channel, and the previous inter-tooth duration used as `d0`
for the sync ratio.  The concrete decoder state struct is not in the excerpt. -/
structure DecoderState where
  synchronized : Bool
  currentToothIndex : Nat
  revolutionCounter : Nat
  lastPrimaryTimestamp : Option Int
  lastSecondaryTimestamp : Option Int
  previousToothDuration : Option Int
deriving DecidableEq

/-- Modelled from the spec: the freshly created decoder state (engine
configuration load); unsynchronized, index 0, no timing history. -/
def initialDecoderState : DecoderState :=
  { synchronized := false
    currentToothIndex := 0
    revolutionCounter := 0
    lastPrimaryTimestamp := none
    lastSecondaryTimestamp := none
    previousToothDuration := none }

/-- Modelled from the spec: decoder error kinds relevant to edge processing.
`DesyncDetected` covers ratio/ordering violations. -/
inductive DecoderError
  | DesyncDetected
deriving DecidableEq

/-- Modelled from the spec: the `DecoderUpdate` emitted after each edge:
tooth index, synchronized flag, revolution counter. -/
structure DecoderUpdate where
  toothIndex : Nat
  synchronized : Bool
  revolutionCounter : Nat
deriving DecidableEq

/-- Ratio of the last two inter-tooth durations, `d1 / d0`, as an exact
rational. -/
def ratioOf (d1 d0 : Int) : Rat := (d1 : Rat) / (d0 : Rat)

/-- Modelled from the spec: the sync ratio test — `true` iff
`syncRatioFrom <= d1/d0 <= syncRatioTo`, both bounds inclusive. -/
def syncMatch (shape : TriggerShape) (d1 d0 : Int) : Bool :=
  decide (shape.syncRatioFrom ≤ ratioOf d1 d0) &&
    decide (ratioOf d1 d0 ≤ shape.syncRatioTo)

/-- Modelled from the spec: the state a decoding error resets to —
unsynchronized, index 0, timing history cleared, so that decoding resumes
cleanly on the next valid edge sequence. -/
def desyncState (s : DecoderState) : DecoderState :=
  { synchronized := false
    currentToothIndex := 0
    revolutionCounter := s.revolutionCounter
    lastPrimaryTimestamp := none
    lastSecondaryTimestamp := none
    previousToothDuration := none }

/-- Modelled from the spec: full decoder reset (desynchronization handled /
configuration change); the implementation is not in the excerpt.  A reset
discards all decoder state, returning the freshly created state. -/
def resetDecoder (_ : DecoderState) : DecoderState := initialDecoderState

/-- Modelled from the spec: `TriggerDecoder.onEdge(channel, polarity,
timestamp) -> DecoderUpdate` — the trigger decoder step, whose implementation
is not in the excerpt.  Following the spec algorithm: on a primary edge of the
configured polarity compute `d1 = now - lastPrimaryEdge` and take `d0` from
the stored previous duration; an edge timestamp not after the previous one on
the same channel, or a non-positive `d0`, is a `DesyncDetected` error that
resets the decoder to unsynchronized.  If the shape requires synchronization
and `syncRatioFrom <= d1/d0 <= syncRatioTo` (inclusive) the edge is the sync
point (`currentToothIndex = 0`, `synchronized = true`, `revolutionCounter`
incremented); otherwise `currentToothIndex` advances modulo tooth count.
Shapes with no sync requirement just count edges and synchronize on the first
primary edge.  Secondary edges are only counted and ordering-checked. -/
def onEdge (shape : TriggerShape) (s : DecoderState) (e : Edge) :
    DecoderState × Except DecoderError DecoderUpdate :=
  match e.channel with
  | TrigChannel.secondary =>
    match s.lastSecondaryTimestamp with
    | none =>
      ({ s with lastSecondaryTimestamp := some e.timestamp },
        Except.ok ⟨s.currentToothIndex, s.synchronized, s.revolutionCounter⟩)
    | some t =>
      if e.timestamp ≤ t then
        (desyncState s, Except.error DecoderError.DesyncDetected)
      else
        ({ s with lastSecondaryTimestamp := some e.timestamp },
          Except.ok ⟨s.currentToothIndex, s.synchronized, s.revolutionCounter⟩)
  | TrigChannel.primary =>
    if e.polarity = shape.primaryPolarity then
      match s.lastPrimaryTimestamp with
      | none =>
        if shape.needsSync then
          ({ s with lastPrimaryTimestamp := some e.timestamp },
            Except.ok ⟨s.currentToothIndex, s.synchronized, s.revolutionCounter⟩)
        else
          let idx := (s.currentToothIndex + 1) % shape.toothCount
          ({ s with lastPrimaryTimestamp := some e.timestamp
                    currentToothIndex := idx
                    synchronized := true },
            Except.ok ⟨idx, true, s.revolutionCounter⟩)
      | some t =>
        let d1 := e.timestamp - t
        if d1 ≤ 0 then
          (desyncState s, Except.error DecoderError.DesyncDetected)
        else if shape.needsSync then
          match s.previousToothDuration with
          | none =>
            let idx := (s.currentToothIndex + 1) % shape.toothCount
            ({ s with lastPrimaryTimestamp := some e.timestamp
                      previousToothDuration := some d1
                      currentToothIndex := idx },
              Except.ok ⟨idx, s.synchronized, s.revolutionCounter⟩)
          | some d0 =>
            if d0 ≤ 0 then
              (desyncState s, Except.error DecoderError.DesyncDetected)
            else if syncMatch shape d1 d0 then
              ({ s with lastPrimaryTimestamp := some e.timestamp
                        previousToothDuration := some d1
                        currentToothIndex := 0
                        synchronized := true
                        revolutionCounter := s.revolutionCounter + 1 },
                Except.ok ⟨0, true, s.revolutionCounter + 1⟩)
            else
              let idx := (s.currentToothIndex + 1) % shape.toothCount
              ({ s with lastPrimaryTimestamp := some e.timestamp
                        previousToothDuration := some d1
                        currentToothIndex := idx },
                Except.ok ⟨idx, s.synchronized, s.revolutionCounter⟩)
        else
          let idx := (s.currentToothIndex + 1) % shape.toothCount
          ({ s with lastPrimaryTimestamp := some e.timestamp
                    previousToothDuration := some d1
                    currentToothIndex := idx
                    synchronized := true },
            Except.ok ⟨idx, true, s.revolutionCounter⟩)
    else
      (s, Except.ok ⟨s.currentToothIndex, s.synchronized, s.revolutionCounter⟩)

/-- Modelled from the spec: deliver a stream of edges to the decoder,
collecting the per-edge `DecoderUpdate` (or error) outputs. -/
def runDecoder (shape : TriggerShape) (s : DecoderState) :
    List Edge → List (Except DecoderError DecoderUpdate)
  | [] => []
  | e :: es =>
    let r := onEdge shape s e
    r.2 :: runDecoder shape r.1 es

/-- Modelled from the spec: the decoder state after delivering a stream of
edges. -/
def runDecoderState (shape : TriggerShape) (s : DecoderState) :
    List Edge → DecoderState
  | [] => s
  | e :: es => runDecoderState shape (onEdge shape s e).1 es

/-- Modelled from the spec: `RpmEstimate` — the current speed value plus a
staleness/validity flag.  The concrete `rpm_calculator.cpp` is not in the
excerpt. -/
structure RpmEstimate where
  value : Rat
  valid : Bool
deriving DecidableEq

/-- Modelled from the spec: the configurable minimum/maximum
plausible-duration bounds of RpmCalculator. -/
structure RpmConfig where
  minPlausibleDuration : Rat
  maxPlausibleDuration : Rat
deriving DecidableEq

/-- Modelled from the spec: `RpmCalculator.onToothDuration(d1,
toothAngularWidth) -> RpmEstimate`, whose implementation
(`rpm_calculator.cpp`) is not in the excerpt.  A duration outside the
plausible bounds marks the estimate stale without updating the stored value;
an in-bound duration (milliseconds) and its angular width (degrees) give the
instantaneous angular velocity and hence engine speed in revolutions per
minute. -/
def onToothDuration (cfg : RpmConfig) (est : RpmEstimate)
    (d1 toothAngularWidth : Rat) : RpmEstimate :=
  if d1 < cfg.minPlausibleDuration ∨ cfg.maxPlausibleDuration < d1 then
    { est with valid := false }
  else
    { value := toothAngularWidth / d1 * 60000 / 360, valid := true }

/-- Modelled from the spec: degrees of shaft rotation per millisecond at a
given engine speed — `rpm` revolutions per minute, 360 degrees per revolution,
60000 milliseconds per minute (at 600 RPM, 360 degrees take 100 ms). -/
def degreesPerMs (rpm : Rat) : Rat := rpm * 360 / 60000

/-- Modelled from the spec: scheduling error kinds returned synchronously by
AngleScheduler. -/
inductive SchedulerError
  | NotSynchronized
  | ResourceBusy
deriving DecidableEq

/-- Modelled from the spec: a successfully armed `ScheduledAction` — the
anchor tooth timestamp and the residual `deltaTime` (milliseconds after the
anchor) armed on the one-shot hardware timer. -/
structure ScheduledAction where
  anchorTimestamp : Int
  deltaTime : Rat
deriving DecidableEq

/-- Modelled from the spec: `AngleScheduler.scheduleAt`, whose implementation
(`main_trigger_callback.cpp` and the event queue) is not in the excerpt.
Scheduling while the decoder is unsynchronized or while the RPM estimate is
invalid (stalled) fails with `NotSynchronized` before any angle-to-time
conversion, so no timer is armed and no division by a zero speed occurs;
otherwise `deltaTime = (targetAngle - anchorAngle) / degreesPerMs rpm` is
armed relative to the anchor tooth timestamp (linear extrapolation at
constant angular velocity). -/
def scheduleAt (synchronized : Bool) (rpm : RpmEstimate) (anchorAngle : Rat)
    (anchorTimestamp : Int) (targetAngle : Rat) :
    Except SchedulerError ScheduledAction :=
  if !synchronized || !rpm.valid then
    Except.error SchedulerError.NotSynchronized
  else
    Except.ok ⟨anchorTimestamp, (targetAngle - anchorAngle) / degreesPerMs rpm.value⟩

/-- `spi_device_e` indexes the five-entry `isSpiInitialized` flag array of
`mpu_util.cpp` (`SPI_NONE` plus `SPI_DEVICE_1..4`). -/
abbrev SpiDevice := Fin 5

/-- Devices for which `turnOnSpi` has an `initSpiModule` bring-up branch
(`SPI_DEVICE_1/2/3`, taking the `STM32_SPI_USE_SPIn` guards as compiled in). -/
def spiHasModule (device : SpiDevice) : Bool :=
  decide (device = 1) || decide (device = 2) || decide (device = 3)

/-- Embedding of `turnOnSpi` (`mpu_util.cpp`): acting on the
`isSpiInitialized` flag array, an already-initialized device returns
immediately; otherwise the device is marked initialized and the SPI module
pins are initialized.  The second component counts the `initSpiModule` calls
performed by this invocation. -/
def turnOnSpi (isSpiInitialized : SpiDevice → Bool) (device : SpiDevice) :
    (SpiDevice → Bool) × Nat :=
  if isSpiInitialized device then
    (isSpiInitialized, 0)
  else
    (Function.update isSpiInitialized device true,
      if spiHasModule device then 1 else 0)

/-- Size in bytes of the static `panicMessage` buffer of `rusefi.cpp`. -/
def panicMessageSize : Nat := 200

/-- The characters copied into `panicMessage` by the `strcpy` in
`chDbgStackOverflowPanic`. -/
def stackOverflowMsg : List Char := "stack overflow: ".toList

/-- Embedding of `chDbgStackOverflowPanic` (`rusefi.cpp`): `strcpy` the
prefix into `panicMessage`, then, when the guard
`strlen(p_name) < sizeof(panicMessage) - 2` passes, `strcat` the thread name.
Returns the final message contents together with the number of buffer bytes
the two string writes cover in total: `strcpy` writes bytes `0..length` and
`strcat` re-terminates at byte `prefixLength + nameLength`, so the covered
byte count is the final string length plus one for the terminating NUL. -/
def chDbgStackOverflowPanic (p_name : List Char) : List Char × Nat :=
  if p_name.length < panicMessageSize - 2 then
    (stackOverflowMsg ++ p_name, stackOverflowMsg.length + p_name.length + 1)
  else
    (stackOverflowMsg, stackOverflowMsg.length + 1)

end RusEfi

namespace RusEfi

/-- C1: on a shape that requires synchronization, an edge whose duration ratio
`d1/d0` lies within `[syncRatioFrom, syncRatioTo]` (bounds inclusive) is
declared the synchronization point — `currentToothIndex = 0`,
`synchronized = true`, `revolutionCounter` incremented — and otherwise
`currentToothIndex` advances modulo the tooth count. -/
theorem c1_sync_window_decides_edge (shape : TriggerShape) (s : DecoderState)
    (e : Edge) (t d0 : Int)
    (hns : shape.needsSync = true)
    (hch : e.channel = TrigChannel.primary)
    (hpol : e.polarity = shape.primaryPolarity)
    (hlast : s.lastPrimaryTimestamp = some t)
    (hprev : s.previousToothDuration = some d0)
    (hd1 : 0 < e.timestamp - t)
    (hd0 : 0 < d0) :
    (syncMatch shape (e.timestamp - t) d0 = true →
      ((onEdge shape s e).1.currentToothIndex = 0 ∧
        (onEdge shape s e).1.synchronized = true ∧
        (onEdge shape s e).1.revolutionCounter = s.revolutionCounter + 1)) ∧
    (syncMatch shape (e.timestamp - t) d0 = false →
      (onEdge shape s e).1.currentToothIndex =
        (s.currentToothIndex + 1) % shape.toothCount) := by
  obtain ⟨ch, pol, ts⟩ := e
  simp only at hch hpol hd1
  subst hch hpol
  constructor
  · intro hmatch
    simp [onEdge, hlast, hprev, hns, hmatch, not_le.mpr hd1, not_le.mpr hd0]
  · intro hmatch
    simp [onEdge, hlast, hprev, hns, hmatch, not_le.mpr hd1, not_le.mpr hd0]

/-- Witness for C1 at a concrete input: a 36-tooth shape with sync window
`[3/2, 3]`, previous duration 10, new duration 15, so the ratio is exactly the
inclusive lower bound `3/2` and the edge synchronizes. -/
theorem c1_sync_window_decides_edge_witness :
    (onEdge ⟨36, 3 / 2, 3, Polarity.rise, true⟩
        ⟨false, 7, 4, some 0, none, some 10⟩
        ⟨TrigChannel.primary, Polarity.rise, 15⟩).1.currentToothIndex = 0 ∧
      (onEdge ⟨36, 3 / 2, 3, Polarity.rise, true⟩
        ⟨false, 7, 4, some 0, none, some 10⟩
        ⟨TrigChannel.primary, Polarity.rise, 15⟩).1.synchronized = true ∧
      (onEdge ⟨36, 3 / 2, 3, Polarity.rise, true⟩
        ⟨false, 7, 4, some 0, none, some 10⟩
        ⟨TrigChannel.primary, Polarity.rise, 15⟩).1.revolutionCounter = 4 + 1 :=
  (c1_sync_window_decides_edge ⟨36, 3 / 2, 3, Polarity.rise, true⟩
    ⟨false, 7, 4, some 0, none, some 10⟩
    ⟨TrigChannel.primary, Polarity.rise, 15⟩ 0 10
    rfl rfl rfl rfl rfl (by decide) (by decide)).1
    (by norm_num [syncMatch, ratioOf])

/-- C2: on a shape with no synchronization requirement, every primary edge of
the configured polarity (with a valid timestamp ordering) increments
`currentToothIndex` modulo the tooth count, `synchronized` is true from the
first primary edge on, and no ratio test is performed — the result does not
depend on the sync ratio window. -/
theorem c2_no_sync_counts_edges (shape : TriggerShape) (s : DecoderState)
    (e : Edge)
    (hns : shape.needsSync = false)
    (hch : e.channel = TrigChannel.primary)
    (hpol : e.polarity = shape.primaryPolarity)
    (hord : ∀ t, s.lastPrimaryTimestamp = some t → t < e.timestamp) :
    (onEdge shape s e).1.synchronized = true ∧
    (onEdge shape s e).1.currentToothIndex =
      (s.currentToothIndex + 1) % shape.toothCount ∧
    (∀ rf rt : Rat, onEdge shape s e =
      onEdge ⟨shape.toothCount, rf, rt, shape.primaryPolarity, false⟩ s e) := by
  obtain ⟨ch, pol, ts⟩ := e
  simp only at hch hpol hord
  subst hch hpol
  obtain ⟨tc, rf0, rt0, pp, ns⟩ := shape
  simp only at hns
  subst hns
  cases hlp : s.lastPrimaryTimestamp with
  | none => simp [onEdge, hlp]
  | some t =>
    have ht := hord t hlp
    refine ⟨?_, ?_, ?_⟩ <;>
      simp [onEdge, hlp, not_le.mpr (by omega : (0 : Int) < ts - t)]

/-- Witness for C2 at a concrete input: a single-tooth shape (tooth count 1,
`needsSync = false`); the first primary edge already yields
`synchronized = true` and tooth index `(0 + 1) % 1 = 0`. -/
theorem c2_no_sync_counts_edges_witness :
    (onEdge ⟨1, 0, 0, Polarity.fall, false⟩ initialDecoderState
        ⟨TrigChannel.primary, Polarity.fall, 100⟩).1.synchronized = true ∧
    (onEdge ⟨1, 0, 0, Polarity.fall, false⟩ initialDecoderState
        ⟨TrigChannel.primary, Polarity.fall, 100⟩).1.currentToothIndex =
      (0 + 1) % 1 ∧
    (∀ rf rt : Rat,
      onEdge ⟨1, 0, 0, Polarity.fall, false⟩ initialDecoderState
          ⟨TrigChannel.primary, Polarity.fall, 100⟩ =
        onEdge ⟨1, rf, rt, Polarity.fall, false⟩ initialDecoderState
          ⟨TrigChannel.primary, Polarity.fall, 100⟩) :=
  c2_no_sync_counts_edges ⟨1, 0, 0, Polarity.fall, false⟩ initialDecoderState
    ⟨TrigChannel.primary, Polarity.fall, 100⟩ rfl rfl rfl
    (fun t ht => by simp [initialDecoderState] at ht)

/-- C4: an edge whose timestamp does not exceed the previous timestamp on the
same channel, or a sync-ratio computation whose stored duration `d0` is not
positive, is a `DesyncDetected` decoding error: the decoder resets to
`synchronized = false` and emits no update (in particular no ratio-derived
sync decision). -/
theorem c4_invalid_ordering_desyncs (shape : TriggerShape) (s : DecoderState)
    (e : Edge) (t d0 : Int) :
    (e.channel = TrigChannel.primary → e.polarity = shape.primaryPolarity →
      s.lastPrimaryTimestamp = some t → e.timestamp ≤ t →
      (onEdge shape s e).2 = Except.error DecoderError.DesyncDetected ∧
        (onEdge shape s e).1.synchronized = false) ∧
    (e.channel = TrigChannel.primary → e.polarity = shape.primaryPolarity →
      s.lastPrimaryTimestamp = some t → t < e.timestamp →
      shape.needsSync = true → s.previousToothDuration = some d0 → d0 ≤ 0 →
      (onEdge shape s e).2 = Except.error DecoderError.DesyncDetected ∧
        (onEdge shape s e).1.synchronized = false) ∧
    (e.channel = TrigChannel.secondary →
      s.lastSecondaryTimestamp = some t → e.timestamp ≤ t →
      (onEdge shape s e).2 = Except.error DecoderError.DesyncDetected ∧
        (onEdge shape s e).1.synchronized = false) := by
  obtain ⟨ch, pol, ts⟩ := e
  refine ⟨?_, ?_, ?_⟩
  · intro hch hpol hlast hts
    simp only at hch hpol hts
    subst hch hpol
    simp [onEdge, hlast, desyncState, (by omega : ts - t ≤ 0)]
  · intro hch hpol hlast hts hns hprev hd0
    simp only at hch hpol hts
    subst hch hpol
    simp [onEdge, hlast, hprev, hns, desyncState, hd0,
      not_le.mpr (by omega : (0 : Int) < ts - t)]
  · intro hch hlast hts
    simp only at hch hts
    subst hch
    simp [onEdge, hlast, desyncState, hts]

/-- Witness for C4 at concrete inputs: a duplicate primary timestamp, a stored
non-positive `d0`, and a duplicate secondary timestamp each produce
`DesyncDetected` with `synchronized = false`. -/
theorem c4_invalid_ordering_desyncs_witness :
    ((onEdge ⟨36, 3 / 2, 3, Polarity.rise, true⟩ ⟨true, 5, 2, some 50, none, some 10⟩
        ⟨TrigChannel.primary, Polarity.rise, 50⟩).2 =
      Except.error DecoderError.DesyncDetected ∧
      (onEdge ⟨36, 3 / 2, 3, Polarity.rise, true⟩ ⟨true, 5, 2, some 50, none, some 10⟩
        ⟨TrigChannel.primary, Polarity.rise, 50⟩).1.synchronized = false) ∧
    ((onEdge ⟨36, 3 / 2, 3, Polarity.rise, true⟩ ⟨true, 5, 2, some 50, none, some 0⟩
        ⟨TrigChannel.primary, Polarity.rise, 60⟩).2 =
      Except.error DecoderError.DesyncDetected ∧
      (onEdge ⟨36, 3 / 2, 3, Polarity.rise, true⟩ ⟨true, 5, 2, some 50, none, some 0⟩
        ⟨TrigChannel.primary, Polarity.rise, 60⟩).1.synchronized = false) ∧
    ((onEdge ⟨36, 3 / 2, 3, Polarity.rise, true⟩ ⟨true, 5, 2, none, some 80, none⟩
        ⟨TrigChannel.secondary, Polarity.rise, 80⟩).2 =
      Except.error DecoderError.DesyncDetected ∧
      (onEdge ⟨36, 3 / 2, 3, Polarity.rise, true⟩ ⟨true, 5, 2, none, some 80, none⟩
        ⟨TrigChannel.secondary, Polarity.rise, 80⟩).1.synchronized = false) :=
  ⟨(c4_invalid_ordering_desyncs ⟨36, 3 / 2, 3, Polarity.rise, true⟩
      ⟨true, 5, 2, some 50, none, some 10⟩
      ⟨TrigChannel.primary, Polarity.rise, 50⟩ 50 10).1
      rfl rfl rfl (by decide),
    (c4_invalid_ordering_desyncs ⟨36, 3 / 2, 3, Polarity.rise, true⟩
      ⟨true, 5, 2, some 50, none, some 0⟩
      ⟨TrigChannel.primary, Polarity.rise, 60⟩ 50 0).2.1
      rfl rfl rfl (by decide) rfl rfl (by decide),
    (c4_invalid_ordering_desyncs ⟨36, 3 / 2, 3, Polarity.rise, true⟩
      ⟨true, 5, 2, none, some 80, none⟩
      ⟨TrigChannel.secondary, Polarity.rise, 80⟩ 80 0).2.2
      rfl rfl (by decide)⟩

/-- C5: the decoder is deterministic across replays — delivering the same edge
stream twice, each time starting from a freshly reset decoder (the second time
from the reset of whatever state the first delivery left), produces identical
output sequences. -/
theorem c5_deterministic_replay (shape : TriggerShape) (es : List Edge)
    (s0 : DecoderState) :
    runDecoder shape
        (resetDecoder (runDecoderState shape (resetDecoder s0) es)) es =
      runDecoder shape (resetDecoder s0) es := rfl

/-- Witness for C5 at a concrete input: a two-edge stream on a 36-tooth shape,
replayed from a reset of the state the first delivery reached. -/
theorem c5_deterministic_replay_witness :
    runDecoder ⟨36, 3 / 2, 3, Polarity.rise, true⟩
        (resetDecoder (runDecoderState ⟨36, 3 / 2, 3, Polarity.rise, true⟩
          (resetDecoder ⟨true, 5, 2, some 50, none, some 10⟩)
          [⟨TrigChannel.primary, Polarity.rise, 10⟩,
            ⟨TrigChannel.primary, Polarity.rise, 20⟩]))
        [⟨TrigChannel.primary, Polarity.rise, 10⟩,
          ⟨TrigChannel.primary, Polarity.rise, 20⟩] =
      runDecoder ⟨36, 3 / 2, 3, Polarity.rise, true⟩
        (resetDecoder ⟨true, 5, 2, some 50, none, some 10⟩)
        [⟨TrigChannel.primary, Polarity.rise, 10⟩,
          ⟨TrigChannel.primary, Polarity.rise, 20⟩] :=
  c5_deterministic_replay ⟨36, 3 / 2, 3, Polarity.rise, true⟩
    [⟨TrigChannel.primary, Polarity.rise, 10⟩,
      ⟨TrigChannel.primary, Polarity.rise, 20⟩]
    ⟨true, 5, 2, some 50, none, some 10⟩

/-- C7: the decoder state invariant — the tooth index stays in
`[0, toothCount)` across every decoder step, the freshly created decoder and
every reset are unsynchronized, and on a shape that requires synchronization
`synchronized` can only turn true through a sync ratio match. -/
theorem c7_decoder_state_invariant :
    initialDecoderState.synchronized = false ∧
    (∀ s : DecoderState, (resetDecoder s).synchronized = false) ∧
    (∀ (shape : TriggerShape) (s : DecoderState) (e : Edge),
      0 < shape.toothCount → s.currentToothIndex < shape.toothCount →
      (onEdge shape s e).1.currentToothIndex < shape.toothCount) ∧
    (∀ (shape : TriggerShape) (s : DecoderState) (e : Edge),
      shape.needsSync = true → s.synchronized = false →
      (onEdge shape s e).1.synchronized = true →
      ∃ t d0, s.lastPrimaryTimestamp = some t ∧
        s.previousToothDuration = some d0 ∧
        syncMatch shape (e.timestamp - t) d0 = true) := by
  refine ⟨rfl, fun _ => rfl, ?_, ?_⟩
  · intro shape s e h0 h
    obtain ⟨ch, pol, ts⟩ := e
    have hmod : (s.currentToothIndex + 1) % shape.toothCount < shape.toothCount :=
      Nat.mod_lt _ h0
    cases ch with
    | secondary =>
      cases hls : s.lastSecondaryTimestamp with
      | none => simpa [onEdge, hls] using h
      | some t =>
        by_cases hts : ts ≤ t
        · simpa [onEdge, hls, hts, desyncState] using h0
        · simpa [onEdge, hls, hts] using h
    | primary =>
      by_cases hpol : pol = shape.primaryPolarity
      · cases hlp : s.lastPrimaryTimestamp with
        | none =>
          by_cases hns : shape.needsSync = true
          · simpa [onEdge, hpol, hlp, hns] using h
          · simp only [Bool.not_eq_true] at hns
            simpa [onEdge, hpol, hlp, hns] using hmod
        | some t =>
          by_cases hd1 : ts - t ≤ 0
          · simpa [onEdge, hpol, hlp, hd1, desyncState] using h0
          · by_cases hns : shape.needsSync = true
            · cases hpd : s.previousToothDuration with
              | none => simpa [onEdge, hpol, hlp, hd1, hns, hpd] using hmod
              | some d0 =>
                by_cases hd0 : d0 ≤ 0
                · simpa [onEdge, hpol, hlp, hd1, hns, hpd, hd0, desyncState]
                    using h0
                · by_cases hm : syncMatch shape (ts - t) d0 = true
                  · simpa [onEdge, hpol, hlp, hd1, hns, hpd, hd0, hm] using h0
                  · simpa [onEdge, hpol, hlp, hd1, hns, hpd, hd0, hm] using hmod
            · simp only [Bool.not_eq_true] at hns
              simpa [onEdge, hpol, hlp, hd1, hns] using hmod
      · simpa [onEdge, hpol] using h
  · intro shape s e hns hsync hres
    obtain ⟨ch, pol, ts⟩ := e
    cases ch with
    | secondary =>
      exfalso
      cases hls : s.lastSecondaryTimestamp with
      | none => simp [onEdge, hls, hsync] at hres
      | some t =>
        by_cases hts : ts ≤ t
        · simp [onEdge, hls, hts, desyncState] at hres
        · simp [onEdge, hls, hts, hsync] at hres
    | primary =>
      by_cases hpol : pol = shape.primaryPolarity
      · cases hlp : s.lastPrimaryTimestamp with
        | none => exfalso; simp [onEdge, hpol, hlp, hns, hsync] at hres
        | some t =>
          by_cases hd1 : ts - t ≤ 0
          · exfalso; simp [onEdge, hpol, hlp, hd1, desyncState] at hres
          · cases hpd : s.previousToothDuration with
            | none =>
              exfalso; simp [onEdge, hpol, hlp, hd1, hns, hpd, hsync] at hres
            | some d0 =>
              by_cases hd0 : d0 ≤ 0
              · exfalso
                simp [onEdge, hpol, hlp, hd1, hns, hpd, hd0, desyncState] at hres
              · by_cases hm : syncMatch shape (ts - t) d0 = true
                · exact ⟨t, d0, rfl, rfl, hm⟩
                · exfalso
                  simp [onEdge, hpol, hlp, hd1, hns, hpd, hd0, hm, hsync] at hres
      · exfalso; simp [onEdge, hpol, hsync] at hres

/-- Witness for C7 at concrete inputs: the tooth-index bound after one step of
a 36-tooth shape from index 7, and the sync-match certificate extracted from a
step that actually turns `synchronized` on. -/
theorem c7_decoder_state_invariant_witness :
    initialDecoderState.synchronized = false ∧
    (onEdge ⟨36, 3 / 2, 3, Polarity.rise, true⟩ ⟨false, 7, 4, some 0, none, some 10⟩
      ⟨TrigChannel.primary, Polarity.rise, 15⟩).1.currentToothIndex < 36 ∧
    (∃ t d0,
      (⟨false, 7, 4, some 0, none, some 10⟩ : DecoderState).lastPrimaryTimestamp =
        some t ∧
      (⟨false, 7, 4, some 0, none, some 10⟩ : DecoderState).previousToothDuration =
        some d0 ∧
      syncMatch ⟨36, 3 / 2, 3, Polarity.rise, true⟩
        ((⟨TrigChannel.primary, Polarity.rise, 15⟩ : Edge).timestamp - t) d0 =
        true) :=
  ⟨c7_decoder_state_invariant.1,
    c7_decoder_state_invariant.2.2.1 ⟨36, 3 / 2, 3, Polarity.rise, true⟩
      ⟨false, 7, 4, some 0, none, some 10⟩
      ⟨TrigChannel.primary, Polarity.rise, 15⟩ (by decide) (by decide),
    c7_decoder_state_invariant.2.2.2 ⟨36, 3 / 2, 3, Polarity.rise, true⟩
      ⟨false, 7, 4, some 0, none, some 10⟩
      ⟨TrigChannel.primary, Polarity.rise, 15⟩ rfl rfl
      (by norm_num [onEdge, syncMatch, ratioOf])⟩

/-- C3: scheduling target angle 700° against the anchor tooth at 690°
timestamped `T`, with a valid constant 600 RPM estimate, arms a residual
`deltaTime` of exactly `25/9` ms relative to `T` — within 0.001 ms of the
expected 2.777 ms (10° at 600 RPM, 360° per 100 ms). -/
theorem c3_schedule_700_at_600_rpm (T : Int) :
    scheduleAt true ⟨600, true⟩ 690 T 700 = Except.ok ⟨T, 25 / 9⟩ ∧
    |(25 / 9 : Rat) - 2777 / 1000| < 1 / 1000 := by
  constructor
  · norm_num [scheduleAt, degreesPerMs]
  · have h : (25 / 9 : Rat) - 2777 / 1000 = 7 / 9000 := by norm_num
    rw [h, abs_of_pos (by norm_num)]
    norm_num

/-- Witness for C3 at the concrete anchor timestamp 0. -/
theorem c3_schedule_700_at_600_rpm_witness :
    scheduleAt true ⟨600, true⟩ 690 0 700 = Except.ok ⟨0, 25 / 9⟩ ∧
    |(25 / 9 : Rat) - 2777 / 1000| < 1 / 1000 :=
  c3_schedule_700_at_600_rpm 0

/-- C6: a `scheduleAt` call made while the decoder is unsynchronized, or while
the RPM estimate is invalid (stalled), fails with `NotSynchronized`: the
result carries no armed action, so no hardware timer is armed and no
angle-to-time conversion with a zero speed is performed. -/
theorem c6_schedule_requires_sync_and_rpm (synchronized : Bool)
    (rpm : RpmEstimate) (anchorAngle : Rat) (anchorTimestamp : Int)
    (targetAngle : Rat)
    (h : synchronized = false ∨ rpm.valid = false) :
    scheduleAt synchronized rpm anchorAngle anchorTimestamp targetAngle =
      Except.error SchedulerError.NotSynchronized := by
  rcases h with h | h <;> simp [scheduleAt, h]

/-- Witness for C6 at concrete inputs: an unsynchronized decoder, and a
synchronized decoder with a stalled (invalid, zero-speed) estimate, both
rejected. -/
theorem c6_schedule_requires_sync_and_rpm_witness :
    scheduleAt false ⟨600, true⟩ 690 0 700 =
      Except.error SchedulerError.NotSynchronized ∧
    scheduleAt true ⟨0, false⟩ 690 0 700 =
      Except.error SchedulerError.NotSynchronized :=
  ⟨c6_schedule_requires_sync_and_rpm false ⟨600, true⟩ 690 0 700 (Or.inl rfl),
    c6_schedule_requires_sync_and_rpm true ⟨0, false⟩ 690 0 700 (Or.inr rfl)⟩

/-- C8: a tooth duration outside the configured plausible bounds leaves the
stored RPM value unchanged and only marks the estimate stale. -/
theorem c8_out_of_bound_sample_marks_stale (cfg : RpmConfig)
    (est : RpmEstimate) (d1 w : Rat)
    (h : d1 < cfg.minPlausibleDuration ∨ cfg.maxPlausibleDuration < d1) :
    (onToothDuration cfg est d1 w).value = est.value ∧
    (onToothDuration cfg est d1 w).valid = false := by
  simp [onToothDuration, h]

/-- Witness for C8 at a concrete input: with plausible bounds `[1, 100]` a
zero duration leaves the stored value 1234 unchanged and invalidates the
estimate. -/
theorem c8_out_of_bound_sample_marks_stale_witness :
    (onToothDuration ⟨1, 100⟩ ⟨1234, true⟩ 0 10).value = 1234 ∧
    (onToothDuration ⟨1, 100⟩ ⟨1234, true⟩ 0 10).valid = false :=
  c8_out_of_bound_sample_marks_stale ⟨1, 100⟩ ⟨1234, true⟩ 0 10
    (Or.inl (by norm_num))

/-- C9: `turnOnSpi` is idempotent per device — every call leaves the device
marked initialized, performs at most one `initSpiModule` call, returns
immediately with no module call when the device is already initialized (in
particular on any repeated call), and never clears another device's
initialized mark. -/
theorem c9_turnOnSpi_idempotent (f : SpiDevice → Bool) (device : SpiDevice) :
    (turnOnSpi f device).1 device = true ∧
    (turnOnSpi f device).2 ≤ 1 ∧
    (f device = true → turnOnSpi f device = (f, 0)) ∧
    (∀ d, f d = true → (turnOnSpi f device).1 d = true) ∧
    turnOnSpi (turnOnSpi f device).1 device = ((turnOnSpi f device).1, 0) := by
  have hAlready : ∀ g : SpiDevice → Bool, g device = true →
      turnOnSpi g device = (g, 0) := by
    intro g hg
    simp [turnOnSpi, hg]
  have h1 : (turnOnSpi f device).1 device = true := by
    by_cases hf : f device = true
    · simp [turnOnSpi, hf]
    · simp [turnOnSpi, hf, Function.update_same]
  refine ⟨h1, ?_, hAlready f, ?_, hAlready _ h1⟩
  · unfold turnOnSpi
    split
    · simp
    · split <;> simp
  · intro d hd
    by_cases hf : f device = true
    · simp [turnOnSpi, hf, hd]
    · rcases eq_or_ne d device with rfl | hne
      · simp [turnOnSpi, hf, Function.update_same]
      · simp [turnOnSpi, hf, Function.update_noteq hne, hd]

/-- Witness for C9 at a concrete input: starting with no device initialized,
turning on device 2 marks it, and the repeated call returns the state
unchanged with no module call. -/
theorem c9_turnOnSpi_idempotent_witness :
    (turnOnSpi (fun _ => false) 2).1 2 = true ∧
    turnOnSpi (turnOnSpi (fun _ => false) 2).1 2 =
      ((turnOnSpi (fun _ => false) 2).1, 0) :=
  ⟨(c9_turnOnSpi_idempotent (fun _ => false) 2).1,
    (c9_turnOnSpi_idempotent (fun _ => false) 2).2.2.2.2⟩

/-- C10: refutation of the claimed buffer safety at a concrete input — a
197-character thread name passes the guard `strlen(p_name) < 200 - 2`, yet
the message then covers `16 + 197 + 1 = 214` bytes, writing past the end of
the 200-byte `panicMessage` buffer: the guard fails to account for the
16-byte "stack overflow: " prefix. -/
theorem c10_panic_guard_overflows_buffer :
    (List.replicate 197 'a').length < panicMessageSize - 2 ∧
    (chDbgStackOverflowPanic (List.replicate 197 'a')).2 = 214 ∧
    panicMessageSize < 214 := by
  refine ⟨?_, ?_, by norm_num [panicMessageSize]⟩
  · rw [List.length_replicate]
    norm_num [panicMessageSize]
  · rw [chDbgStackOverflowPanic,
      if_pos (by rw [List.length_replicate]; norm_num [panicMessageSize])]
    have h2 : stackOverflowMsg.length = 16 := rfl
    rw [h2, List.length_replicate]

end RusEfi
